import Mathlib

/-!
Verification development for the AI Translator & Critic Flask application
(src/app.py).  The application has two pieces of logic:

* `call_llm model_name messages` — builds a prompt from the messages, performs
  one HTTP POST to the Mentorpiece endpoint and normalises every outcome
  (transport failure, non-200 response, 200 response with or without parsable
  JSON) into a uniform result record;
* `process` — the POST "/" route handler: validates the form, performs the
  translation call, and for the "judge" action a second judging call whose
  prompt embeds the first call's text.

The embedding models Python values (the JSON payloads and the dynamically
typed message entries) by the inductive type `PyVal`, Python exceptions by
`PyExn`, and the HTTP transport by a function from the issued request to a
`TransportResult` (either a raised `requests.RequestException`, carried as its
stringification, or a completed `HttpResponse`).  A completed response bundles
the status code, the raw body text, and the outcome of `resp.json()` (a parse
failure means `resp.json()` raises `ValueError`).  `call_llm` returns, next to
the (possibly exceptional) result, the list of HTTP requests it issued, so
that request-shape properties can be stated.
-/

/-- A Python value, as needed by the app: `None`, booleans, integers, strings,
lists and dicts (dicts with string keys, as produced by JSON parsing). -/
inductive PyVal where
  | none : PyVal
  | bool : Bool → PyVal
  | int : Int → PyVal
  | str : String → PyVal
  | list : List PyVal → PyVal
  | dict : List (String × PyVal) → PyVal

/-- Python truthiness: `None`, `False`, `0`, `""`, `[]` and `\x7b\x7d` are falsy,
everything else is truthy. -/
def pyTruthy : PyVal → Bool
  | .none => false
  | .bool b => b
  | .int n => n != 0
  | .str s => s != ""
  | .list xs => !xs.isEmpty
  | .dict fs => !fs.isEmpty

/-- Python `d.get(k)`: the value stored under `k`, or `None` when absent. -/
def pyGet (fs : List (String × PyVal)) (k : String) : PyVal :=
  match fs.lookup k with
  | some v => v
  | Option.none => PyVal.none

/-- Python `a or b`: `a` when `a` is truthy, otherwise `b`. -/
def pyOr (a b : PyVal) : PyVal :=
  if pyTruthy a then a else b

/-- Python `repr` on the modelled values (string escaping is modelled only as
far as the app needs it: quotes around strings, no escape sequences). -/
def pyRepr : PyVal → String
  | .none => "None"
  | .bool true => "True"
  | .bool false => "False"
  | .int n => toString n
  | .str s => "\x27" ++ s ++ "\x27"
  | .list xs => "[" ++ String.intercalate ", " (xs.attach.map fun x => pyRepr x.1) ++ "]"
  | .dict fs => "\x7b" ++
      String.intercalate ", "
        (fs.attach.map fun kv => "\x27" ++ kv.1.1 ++ "\x27: " ++ pyRepr kv.1.2) ++ "\x7d"
  decreasing_by
  · simp_wf
    have := List.sizeOf_lt_of_mem x.2
    omega
  · simp_wf
    rcases kv with ⟨⟨k, v⟩, hm⟩
    have h1 := List.sizeOf_lt_of_mem hm
    simp only [Prod.mk.sizeOf_spec] at h1
    simp only [Subtype.mk.sizeOf_spec]
    omega

/-- Python `str`: the identity on strings, `repr` on every other value. -/
def pyStr : PyVal → String
  | .str s => s
  | v => pyRepr v

/-- Whether a Python value is a string. -/
def PyVal.isStr : PyVal → Bool
  | .str _ => true
  | _ => false

/-- The whitespace characters removed by Python `str.strip()` (the ASCII
whitespace set; the app only strips form input). -/
def isPySpace (c : Char) : Bool :=
  c == ' ' || c == '\t' || c == '\n' || c == '\r' || c == '\x0b' || c == '\x0c'

/-- Python `s.strip()`: remove leading and trailing whitespace. -/
def pyStrip (s : String) : String :=
  String.mk (((s.toList.dropWhile isPySpace).reverse.dropWhile isPySpace).reverse)

/-- The fixed API endpoint (`MENTORPIECE_ENDPOINT` in src/app.py line 38). -/
def MENTORPIECE_ENDPOINT : String := "https://api.mentorpiece.org/v1/process-ai-request"

/-- The JSON payload of a call: `\x7b"model_name": ..., "prompt": ...\x7d`
(src/app.py line 69). -/
structure InvocationRequest where
  model_name : String
  prompt : String
deriving DecidableEq

/-- One outbound HTTP request as issued by `requests.post` on line 78 of
src/app.py: the URL, the method, the JSON payload, the headers, and the
timeout in seconds. -/
structure HttpRequest where
  url : String
  method : String
  payload : InvocationRequest
  headers : List (String × String)
  timeout : Nat
deriving DecidableEq

/-- A completed HTTP response, modelling the `requests.Response` object:
`status_code`, `text` (the raw body), and the outcome of `resp.json()`
(`Except.error` means `resp.json()` raises `ValueError`). -/
structure HttpResponse where
  status_code : Nat
  text : String
  json : Except Unit PyVal

/-- The behaviour of the transport on one request: either `requests.post`
raises a `requests.RequestException` (carried as its stringification `str(e)`),
or it completes with a response. -/
inductive TransportResult where
  | exn : String → TransportResult
  | success : HttpResponse → TransportResult

/-- The Python exceptions relevant to src/app.py.  `requestException` is
`requests.RequestException` carrying `str(e)`; the others arise inside
`call_llm`'s inner try blocks and are always caught there. -/
inductive PyExn where
  | requestException : String → PyExn
  | valueError : PyExn
  | attributeError : PyExn
deriving DecidableEq

/-- The dict returned by `call_llm` (src/app.py lines 54-58): `ok`, `text`
(a Python value: the code can store non-string JSON values there), `raw`, and
`status_code` (`None` after a transport failure). -/
structure InvocationResult where
  ok : Bool
  text : PyVal
  raw : String
  status_code : Option Nat

/-- Lines 61-67 of src/app.py: the prompt parts, one per message — a dict
carrying a `"content"` key contributes `str(m["content"])`, anything else
contributes `str(m)`. -/
def prompt_parts : List PyVal → List String
  | [] => []
  | m :: ms =>
    (match m with
     | .dict fs =>
       match fs.lookup "content" with
       | some c => pyStr c
       | Option.none => pyStr (.dict fs)
     | _ => pyStr m) :: prompt_parts ms

/-- Line 67 of src/app.py: `prompt = "\n".join(prompt_parts)`. -/
def build_prompt (messages : List PyVal) : String :=
  String.intercalate "\n" (prompt_parts messages)

/-- The request issued by `call_llm` (src/app.py lines 69-78): POST to the
fixed endpoint, the JSON payload, the single `Content-Type` header, and
`timeout=20`. -/
def call_llm_request (model_name : String) (messages : List PyVal) : HttpRequest :=
  { url := MENTORPIECE_ENDPOINT
    method := "POST"
    payload := { model_name := model_name, prompt := build_prompt messages }
    headers := [("Content-Type", "application/json")]
    timeout := 20 }

/-- Lines 79-103 of src/app.py: normalise a completed HTTP response.
On status ≠ 200 the inner `try` parses the body and evaluates
`j.get("response") or j.get("message") or raw`; a parse failure or a
non-dict body raises inside the `try` and the `except Exception` falls back
to the raw body.  On status 200 the body is parsed; a dict's `"response"`
value is used when truthy, otherwise `str(j)`; a parse failure hits
`except ValueError` and returns the raw body. -/
def handle_http_response (resp : HttpResponse) : InvocationResult :=
  let raw := resp.text
  let status := resp.status_code
  if status ≠ 200 then
    let text : PyVal :=
      match resp.json with
      | .ok (.dict fs) => pyOr (pyGet fs "response") (pyOr (pyGet fs "message") (.str raw))
      | _ => .str raw
    { ok := false, text := text, raw := raw, status_code := some status }
  else
    match resp.json with
    | .ok j =>
      let t : PyVal :=
        match j with
        | .dict fs => pyGet fs "response"
        | _ => PyVal.none
      let text := if pyTruthy t then t else PyVal.str (pyStr j)
      { ok := true, text := text, raw := raw, status_code := some status }
    | .error _ => { ok := true, text := .str raw, raw := raw, status_code := some status }

/-- The body of the `try` on lines 76-103 of src/app.py: a raised
`requests.RequestException` escapes as an exception, a completed exchange is
normalised by `handle_http_response`. -/
def call_llm_try_body (tr : TransportResult) : Except PyExn InvocationResult :=
  match tr with
  | .exn e => Except.error (PyExn.requestException e)
  | .success resp => Except.ok (handle_http_response resp)

/-- Lines 76-108 of src/app.py: the `try` body together with the
`except requests.RequestException` handler, which returns
`\x7b"ok": False, "text": str(e), "raw": "", "status_code": None\x7d`.
Any other exception would propagate. -/
def call_llm_outcome (tr : TransportResult) : Except PyExn InvocationResult :=
  match call_llm_try_body tr with
  | .ok r => .ok r
  | .error (.requestException e) =>
    .ok { ok := false, text := .str e, raw := "", status_code := Option.none }
  | .error ex => .error ex

/-- `call_llm` (src/app.py lines 44-108): build the prompt and the request,
hand the request to the transport exactly once, and normalise the outcome.
The second component is the list of HTTP requests issued. -/
def call_llm (model_name : String) (messages : List PyVal)
    (transport : HttpRequest → TransportResult) :
    Except PyExn InvocationResult × List HttpRequest :=
  let req := call_llm_request model_name messages
  (call_llm_outcome (transport req), [req])

/-- The form fields consumed by the POST "/" handler (src/app.py lines
128-130): `request.form.get` yields `None` for an absent field. -/
structure Form where
  source_text : Option String
  language : Option String
  action : Option String

/-- The keyword arguments passed to `render_template` on lines 159-169 of
src/app.py. -/
structure RenderCtx where
  source_text : String
  language : String
  translation : PyVal
  translation_ok : Bool
  translation_raw : String
  judge_text : Option PyVal
  judge_ok : Bool
  judge_raw : Option String

/-- The page rendered by the handler: either the flash-message page for an
empty source text (lines 132-134) or the results page (lines 159-169). -/
inductive RenderPage where
  | flashError : String → RenderPage
  | results : RenderCtx → RenderPage

/-- One invocation of `call_llm` as issued by the handler: the model name and
the message list (from which the prompt is built). -/
structure AdapterCall where
  model_name : String
  messages : List PyVal

/-- Line 128 of src/app.py: `request.form.get("source_text", "").strip()`. -/
def form_source_text (form : Form) : String :=
  pyStrip (form.source_text.getD "")

/-- Line 129 of src/app.py: `request.form.get("language", "English")`. -/
def form_language (form : Form) : String :=
  form.language.getD "English"

/-- Line 137 of src/app.py: the translation prompt
`f"Переведи на \x7blanguage\x7d: \x7bsource_text\x7d"`. -/
def translate_prompt (form : Form) : String :=
  "Переведи на " ++ form_language form ++ ": " ++ form_source_text form

/-- Lines 149-152 of src/app.py: the judge prompt, embedding the source text
and `translation or "[нет перевода]"`. -/
def judge_prompt (form : Form) (translation : PyVal) : String :=
  "Оцени качество перевода от 1 до 10 и коротко аргументируй.\nОригинал: " ++
    form_source_text form ++ "\nПеревод: " ++
    pyStr (pyOr translation (PyVal.str "[нет перевода]"))

/-- A message dict `\x7b"role": "user", "content": ...\x7d` as built by the
handler on lines 138 and 153 of src/app.py. -/
def user_message (content : String) : PyVal :=
  PyVal.dict [("role", PyVal.str "user"), ("content", PyVal.str content)]

/-- The POST "/" handler `process` (src/app.py lines 120-169).  An empty
stripped source text flashes a message and renders the bare page.  Otherwise
the translation model is called; when `action == "judge"`, the judge model is
called with a prompt built from the first call's `text`.  The second
component lists the `call_llm` invocations that were performed.  An exception
escaping `call_llm` would propagate out of the handler, hence the `Except`. -/
def process (form : Form) (transport : HttpRequest → TransportResult) :
    Except PyExn (RenderPage × List AdapterCall) :=
  if form_source_text form = "" then
    Except.ok (RenderPage.flashError "Пожалуйста, введите исходный текст для перевода.", [])
  else
    match (call_llm "Qwen/Qwen3-VL-30B-A3B-Instruct"
        [user_message (translate_prompt form)] transport).1 with
    | .error e => .error e
    | .ok trans_resp =>
      if form.action = some "judge" then
        match (call_llm "claude-sonnet-4-5-20250929"
            [user_message (judge_prompt form trans_resp.text)] transport).1 with
        | .error e => .error e
        | .ok judge_resp =>
          Except.ok (RenderPage.results
            { source_text := form_source_text form
              language := form_language form
              translation := trans_resp.text
              translation_ok := trans_resp.ok
              translation_raw := trans_resp.raw
              judge_text := some judge_resp.text
              judge_ok := judge_resp.ok
              judge_raw := some judge_resp.raw },
            [ { model_name := "Qwen/Qwen3-VL-30B-A3B-Instruct"
                messages := [user_message (translate_prompt form)] },
              { model_name := "claude-sonnet-4-5-20250929"
                messages := [user_message (judge_prompt form trans_resp.text)] } ])
      else
        Except.ok (RenderPage.results
          { source_text := form_source_text form
            language := form_language form
            translation := trans_resp.text
            translation_ok := trans_resp.ok
            translation_raw := trans_resp.raw
            judge_text := Option.none
            judge_ok := false
            judge_raw := Option.none },
          [ { model_name := "Qwen/Qwen3-VL-30B-A3B-Instruct"
              messages := [user_message (translate_prompt form)] } ])

/-! ### Definitions following the specification's words

These are stated from spec.md, to be compared with the definitions above
that embed src/app.py. -/

/-- Spec, section 3 "Prompt": "a single string formed by joining each
Message's content with newline separators ... Non-string content is coerced
to its string representation; non-mapping entries are coerced to a string
directly."  The per-entry contribution. -/
def message_text_spec (m : PyVal) : String :=
  match m with
  | .dict fs =>
    match fs.lookup "content" with
    | some c => pyStr c
    | Option.none => pyStr (.dict fs)
  | _ => pyStr m

/-- Spec, section 4.1 step 6: on a 200 exchange, the displayed text is the
mapping's non-empty (truthy) "response" value, else the string representation
of the whole parsed body, else (parse failure) the raw body. -/
def success_text_spec (resp : HttpResponse) : PyVal :=
  match resp.json with
  | .ok (.dict fs) =>
    if pyTruthy (pyGet fs "response") then pyGet fs "response"
    else PyVal.str (pyStr (.dict fs))
  | .ok j => PyVal.str (pyStr j)
  | .error _ => PyVal.str resp.text

/-- Claim C3 read literally: on a non-200 exchange whose body parses to a
mapping, the text is the field "response" whenever present, else the field
"message" whenever present, else the raw body. -/
def http_error_text_literal (resp : HttpResponse) : PyVal :=
  match resp.json with
  | .ok (.dict fs) =>
    match fs.lookup "response" with
    | some v => v
    | Option.none =>
      match fs.lookup "message" with
      | some v => v
      | Option.none => PyVal.str resp.text
  | _ => PyVal.str resp.text

/-- Claim C3 amended: the extracted field is used only when it is present and
truthy — `"response"` first, then `"message"`, then the raw body. -/
def http_error_text_spec (resp : HttpResponse) : PyVal :=
  match resp.json with
  | .ok (.dict fs) =>
    if pyTruthy (pyGet fs "response") then pyGet fs "response"
    else if pyTruthy (pyGet fs "message") then pyGet fs "message"
    else PyVal.str resp.text
  | _ => PyVal.str resp.text

/-! ### Concrete responses used to instantiate the theorems -/

/-- A 200 response whose JSON body is `\x7b"response": "Bonjour"\x7d`. -/
def resp_200_bonjour : HttpResponse :=
  { status_code := 200
    text := "\x7b\"response\": \"Bonjour\"\x7d"
    json := Except.ok (PyVal.dict [("response", PyVal.str "Bonjour")]) }

/-- A 200 response whose JSON body is `\x7b"response": "hi"\x7d`. -/
def resp_200_hi : HttpResponse :=
  { status_code := 200
    text := "\x7b\"response\": \"hi\"\x7d"
    json := Except.ok (PyVal.dict [("response", PyVal.str "hi")]) }

/-- A 200 response whose JSON body is `\x7b"response": 42\x7d`: the
`"response"` field holds a number, not a string. -/
def resp_200_int_response : HttpResponse :=
  { status_code := 200
    text := "\x7b\"response\": 42\x7d"
    json := Except.ok (PyVal.dict [("response", PyVal.int 42)]) }

/-- A 500 response whose JSON body is `\x7b"response": ""\x7d`: the
`"response"` field is present but empty. -/
def resp_500_empty_response : HttpResponse :=
  { status_code := 500
    text := "\x7b\"response\": \"\"\x7d"
    json := Except.ok (PyVal.dict [("response", PyVal.str "")]) }

/-- A 500 response whose JSON body is `\x7b"message": "overloaded"\x7d`. -/
def resp_500_overloaded : HttpResponse :=
  { status_code := 500
    text := "\x7b\"message\": \"overloaded\"\x7d"
    json := Except.ok (PyVal.dict [("message", PyVal.str "overloaded")]) }

/-! ### Helper lemmas -/

/-- `call_llm_outcome` never yields an exception: the only exception the try
body raises is `requests.RequestException`, and the handler catches it. -/
theorem call_llm_outcome_isOk (tr : TransportResult) :
    ∃ r : InvocationResult, call_llm_outcome tr = Except.ok r := by
  cases tr with
  | exn e => exact ⟨_, rfl⟩
  | success resp => exact ⟨_, rfl⟩

/-- The prompt parts are the map of the per-entry coercion over the
messages. -/
theorem prompt_parts_eq_map (messages : List PyVal) :
    prompt_parts messages = messages.map message_text_spec := by
  induction messages with
  | nil => rfl
  | cons m ms ih =>
    simp only [prompt_parts, List.map, ih, message_text_spec]

/-- The prompt built from a single user message is that message's content. -/
theorem build_prompt_user_message (content : String) :
    build_prompt [user_message content] = content := rfl

/-- `a or b` is truthy or equal to `b`. -/
theorem pyOr_shape (a b : PyVal) : pyTruthy (pyOr a b) = true ∨ pyOr a b = b := by
  unfold pyOr
  by_cases h : pyTruthy a = true
  · rw [if_pos h]; exact Or.inl h
  · rw [if_neg h]; exact Or.inr rfl

/-- Every normalised completed response has a `text` that is a string or
truthy. -/
theorem handle_http_response_text_shape (resp : HttpResponse) :
    (handle_http_response resp).text.isStr = true ∨
      pyTruthy (handle_http_response resp).text = true := by
  unfold handle_http_response
  by_cases hs : resp.status_code ≠ 200
  · rw [if_pos hs]
    cases hj : resp.json with
    | error e => left; rfl
    | ok j =>
      cases j with
      | dict fs =>
        dsimp only
        rcases pyOr_shape (pyGet fs "response") (pyOr (pyGet fs "message") (PyVal.str resp.text))
            with h1 | h1
        · right; exact h1
        · rw [h1]
          rcases pyOr_shape (pyGet fs "message") (PyVal.str resp.text) with h2 | h2
          · right; exact h2
          · rw [h2]; left; rfl
      | none => left; rfl
      | bool b => left; rfl
      | int n => left; rfl
      | str s => left; rfl
      | list xs => left; rfl
  · rw [if_neg hs]
    cases hj : resp.json with
    | error e => left; rfl
    | ok j =>
      cases j with
      | dict fs =>
        dsimp only
        by_cases h1 : pyTruthy (pyGet fs "response") = true
        · rw [if_pos h1]; right; exact h1
        · rw [if_neg h1]; left; rfl
      | none => left; rfl
      | bool b => left; rfl
      | int n => left; rfl
      | str s => left; rfl
      | list xs => left; rfl

/-- Every result coming out of `call_llm_outcome` has a `text` that is a
string or truthy: every branch of the adapter stores either a string (raw
body, `str(j)`, `str(e)`) or a truthy value extracted from the parsed JSON
body. -/
theorem call_llm_text_shape (tr : TransportResult) (r : InvocationResult)
    (h : call_llm_outcome tr = Except.ok r) :
    r.text.isStr = true ∨ pyTruthy r.text = true := by
  cases tr with
  | exn e =>
    simp only [call_llm_outcome, call_llm_try_body] at h
    cases h
    left; rfl
  | success resp =>
    simp only [call_llm_outcome, call_llm_try_body] at h
    cases h
    exact handle_http_response_text_shape resp

/-- A falsy `text` out of the adapter can only be the empty string. -/
theorem call_llm_text_falsy_empty (tr : TransportResult) (r : InvocationResult)
    (h : call_llm_outcome tr = Except.ok r) (hf : pyTruthy r.text = false) :
    r.text = PyVal.str "" := by
  rcases call_llm_text_shape tr r h with hstr | htr
  · cases ht : r.text with
    | str s =>
      rw [ht] at hf
      simp only [pyTruthy] at hf
      rw [bne_eq_false_iff_eq] at hf
      rw [hf]
    | none => rw [ht] at hstr; cases hstr
    | bool b => rw [ht] at hstr; cases hstr
    | int n => rw [ht] at hstr; cases hstr
    | list xs => rw [ht] at hstr; cases hstr
    | dict fs => rw [ht] at hstr; cases hstr
  · rw [htr] at hf; cases hf

/-- `call_llm` always yields a result, at the level of the full adapter. -/
theorem call_llm_fst_isOk (model_name : String) (messages : List PyVal)
    (transport : HttpRequest → TransportResult) :
    ∃ r : InvocationResult, (call_llm model_name messages transport).1 = Except.ok r :=
  call_llm_outcome_isOk (transport (call_llm_request model_name messages))

/-- `str(t or s)` is `str(t)` when `t` is truthy, otherwise `s`. -/
theorem pyStr_pyOr (t : PyVal) (s : String) :
    pyStr (pyOr t (PyVal.str s)) = if pyTruthy t = true then pyStr t else s := by
  unfold pyOr
  by_cases h : pyTruthy t = true
  · rw [if_pos h, if_pos h]
  · rw [if_neg h, if_neg h]; rfl

/-! ### Claims -/

/-- Claim C1: for every model name and every sequence of messages (and every
behaviour of the HTTP transport), `call_llm` returns an `InvocationResult`
and never raises an exception to its caller: every transport failure, HTTP
failure, and parse failure is captured into the fields of the returned
record. -/
theorem C1_call_llm_never_raises (model_name : String) (messages : List PyVal)
    (transport : HttpRequest → TransportResult) :
    ∃ r : InvocationResult, (call_llm model_name messages transport).1 = Except.ok r :=
  call_llm_fst_isOk model_name messages transport

/-- Claim C4: on every transport-level failure, `call_llm` returns `ok` false,
`text` equal to the stringified error description, `raw` equal to the empty
string, and `status_code` null; moreover `text` is non-empty (truthy) exactly
when the stringified error description is. -/
theorem C4_transport_failure_result (model_name : String) (messages : List PyVal)
    (e : String) :
    (call_llm model_name messages (fun _ => TransportResult.exn e)).1 =
      Except.ok { ok := false, text := PyVal.str e, raw := "", status_code := Option.none }
    ∧ pyTruthy (PyVal.str e) = (e != "") :=
  ⟨rfl, rfl⟩

/-- Claim C6: for every sequence of messages, the prompt built by `call_llm`
equals the newline-join, in input order, of each message's content converted
to a string (entries that are not mappings carrying a "content" key are
coerced to a string directly), and the empty sequence yields the empty
prompt. -/
theorem C6_prompt_is_newline_join :
    (∀ messages : List PyVal,
      build_prompt messages = String.intercalate "\n" (messages.map message_text_spec))
    ∧ build_prompt [] = "" :=
  ⟨fun messages => by rw [build_prompt, prompt_parts_eq_map], rfl⟩

/-- Claim C8: each invocation of `call_llm` performs exactly one HTTP POST, to
the fixed endpoint, with JSON body carrying the given model name and the
built prompt, header `Content-Type: application/json`, no `Authorization`
header, and a timeout of 20 time units; no retries are attempted. -/
theorem C8_single_post_request (model_name : String) (messages : List PyVal)
    (transport : HttpRequest → TransportResult) :
    (call_llm model_name messages transport).2 = [call_llm_request model_name messages]
    ∧ call_llm_request model_name messages =
      { url := MENTORPIECE_ENDPOINT
        method := "POST"
        payload := { model_name := model_name, prompt := build_prompt messages }
        headers := [("Content-Type", "application/json")]
        timeout := 20 }
    ∧ ((call_llm_request model_name messages).headers.all
        fun h => h.1 != "Authorization") = true :=
  ⟨rfl, rfl, rfl⟩

/-- Claim C9, counterexample: a completed 200 exchange whose JSON body is
`\x7b"response": 42\x7d` makes `call_llm` return the number 42 in the `text`
field — `text` is not a string on this path, so "the text field is a string on
every path" fails on the code. -/
theorem C9_counterexample_text_not_string :
    (call_llm "model-x" [user_message "hi"]
        (fun _ => TransportResult.success resp_200_int_response)).1 =
      Except.ok { ok := true, text := PyVal.int 42, raw := "\x7b\"response\": 42\x7d",
                  status_code := some 200 }
    ∧ (PyVal.int 42).isStr = false :=
  ⟨rfl, rfl⟩

/-- Claim C9, amended: on every path the `text` field of a returned record is
never null (`None`); it is either a string or a truthy value extracted
verbatim from the parsed JSON body (so it need not be a string when that
field holds a truthy non-string JSON value). -/
theorem C9_text_never_none (model_name : String) (messages : List PyVal)
    (transport : HttpRequest → TransportResult) (r : InvocationResult)
    (h : (call_llm model_name messages transport).1 = Except.ok r) :
    r.text ≠ PyVal.none ∧ (r.text.isStr = true ∨ pyTruthy r.text = true) := by
  have h' : call_llm_outcome (transport (call_llm_request model_name messages)) =
      Except.ok r := h
  have hsh := call_llm_text_shape _ _ h'
  refine ⟨?_, hsh⟩
  intro hn
  rcases hsh with hs | ht
  · rw [hn] at hs; cases hs
  · rw [hn] at ht; cases ht

/-- Witness for C9's amended theorem, at a transport failure. -/
theorem C9_text_never_none_witness :
    ((call_llm "model-x" [] (fun _ => TransportResult.exn "kaput")).1 =
      Except.ok { ok := false, text := PyVal.str "kaput", raw := "",
                  status_code := Option.none })
    ∧ (PyVal.str "kaput" ≠ PyVal.none ∧
        ((PyVal.str "kaput").isStr = true ∨ pyTruthy (PyVal.str "kaput") = true)) :=
  ⟨rfl, C9_text_never_none "model-x" [] (fun _ => TransportResult.exn "kaput") _ rfl⟩

/-- Claim C2: for every completed HTTP exchange with status 200, `call_llm`
returns `ok` true, `raw` equal to the raw body, `status_code` 200, and `text`
as the spec describes it: the mapping's non-empty (truthy) "response" value
when the body parses to such a mapping, else the string representation of the
parsed body, else (body not valid JSON) the raw body. -/
theorem C2_status_200_normalisation (model_name : String) (messages : List PyVal)
    (resp : HttpResponse) (h : resp.status_code = 200) :
    (call_llm model_name messages (fun _ => TransportResult.success resp)).1 =
      Except.ok { ok := true, text := success_text_spec resp, raw := resp.text,
                  status_code := some 200 } := by
  show call_llm_outcome (TransportResult.success resp) = _
  simp only [call_llm_outcome, call_llm_try_body]
  unfold handle_http_response success_text_spec
  rw [if_neg (by rw [h]; exact fun hc => hc rfl)]
  cases hj : resp.json with
  | error e => rw [h]
  | ok j =>
    cases j with
    | dict fs => rw [h]
    | none => rw [h]; rfl
    | bool b => rw [h]; rfl
    | int n => rw [h]; rfl
    | str s => rw [h]; rfl
    | list xs => rw [h]; rfl

/-- Witness for C2, at the spec's own example: a 200 response with JSON body
carrying "response": "Bonjour". -/
theorem C2_status_200_normalisation_witness :
    resp_200_bonjour.status_code = 200
    ∧ (call_llm "model-x" [user_message "hi"]
        (fun _ => TransportResult.success resp_200_bonjour)).1 =
      Except.ok { ok := true, text := success_text_spec resp_200_bonjour,
                  raw := resp_200_bonjour.text, status_code := some 200 }
    ∧ success_text_spec resp_200_bonjour = PyVal.str "Bonjour" :=
  ⟨rfl,
   C2_status_200_normalisation "model-x" [user_message "hi"] resp_200_bonjour rfl,
   rfl⟩

/-- Claim C3, counterexample: on a 500 exchange whose JSON body is
`\x7b"response": ""\x7d`, the field "response" is present (with value `""`),
so the claim as stated says `text` is that field's value — but the code's
`j.get("response") or j.get("message") or raw` skips the falsy field and
returns the raw body instead. -/
theorem C3_counterexample_empty_response_field :
    (call_llm "model-x" [user_message "hi"]
        (fun _ => TransportResult.success resp_500_empty_response)).1 =
      Except.ok { ok := false, text := PyVal.str "\x7b\"response\": \"\"\x7d",
                  raw := "\x7b\"response\": \"\"\x7d", status_code := some 500 }
    ∧ http_error_text_literal resp_500_empty_response = PyVal.str ""
    ∧ PyVal.str "\x7b\"response\": \"\"\x7d" ≠ PyVal.str "" :=
  ⟨rfl, rfl, by simp only [ne_eq, PyVal.str.injEq]; decide⟩

/-- Claim C3, amended: for every completed HTTP exchange with status ≠ 200,
`call_llm` returns `ok` false, `raw` equal to the raw body, `status_code`
equal to the status, and `text` the mapping's "response" field when present
and non-empty (truthy), else its "message" field when present and truthy;
when neither is, or the parse fails, or the parsed value is not a mapping,
`text` is the raw body. -/
theorem C3_status_non200_normalisation (model_name : String) (messages : List PyVal)
    (resp : HttpResponse) (h : resp.status_code ≠ 200) :
    (call_llm model_name messages (fun _ => TransportResult.success resp)).1 =
      Except.ok { ok := false, text := http_error_text_spec resp, raw := resp.text,
                  status_code := some resp.status_code } := by
  show call_llm_outcome (TransportResult.success resp) = _
  simp only [call_llm_outcome, call_llm_try_body]
  unfold handle_http_response http_error_text_spec
  rw [if_pos h]
  cases hj : resp.json with
  | error e => rfl
  | ok j =>
    cases j with
    | dict fs => unfold pyOr; rfl
    | none => rfl
    | bool b => rfl
    | int n => rfl
    | str s => rfl
    | list xs => rfl

/-- Witness for C3's amended theorem, at the spec's own example: a 500
response with JSON body carrying "message": "overloaded". -/
theorem C3_status_non200_normalisation_witness :
    resp_500_overloaded.status_code ≠ 200
    ∧ (call_llm "model-x" [user_message "hi"]
        (fun _ => TransportResult.success resp_500_overloaded)).1 =
      Except.ok { ok := false, text := http_error_text_spec resp_500_overloaded,
                  raw := resp_500_overloaded.text, status_code := some 500 }
    ∧ http_error_text_spec resp_500_overloaded = PyVal.str "overloaded" :=
  ⟨by decide,
   C3_status_non200_normalisation "model-x" [user_message "hi"] resp_500_overloaded
     (by decide),
   rfl⟩

/-- Claim C5: `ok` is true exactly when the HTTP call completed and the server
returned status 200; on every transport failure and on every completed
exchange with a non-200 status, `ok` is false. -/
theorem C5_ok_iff_completed_200 (model_name : String) (messages : List PyVal)
    (transport : HttpRequest → TransportResult) (r : InvocationResult)
    (h : (call_llm model_name messages transport).1 = Except.ok r) :
    r.ok = true ↔ ∃ resp : HttpResponse,
      transport (call_llm_request model_name messages) = TransportResult.success resp
      ∧ resp.status_code = 200 := by
  have h' : call_llm_outcome (transport (call_llm_request model_name messages)) =
      Except.ok r := h
  cases htr : transport (call_llm_request model_name messages) with
  | exn e =>
    rw [htr] at h'
    simp only [call_llm_outcome, call_llm_try_body] at h'
    cases h'
    constructor
    · intro hok; cases hok
    · rintro ⟨resp, hresp, -⟩
      cases hresp
  | success resp =>
    rw [htr] at h'
    simp only [call_llm_outcome, call_llm_try_body] at h'
    cases h'
    unfold handle_http_response
    by_cases hs : resp.status_code ≠ 200
    · rw [if_pos hs]
      cases hj : resp.json with
      | error e =>
        dsimp only
        constructor
        · intro hok; cases hok
        · rintro ⟨resp', hresp', h200⟩
          cases hresp'
          exact absurd h200 hs
      | ok j =>
        dsimp only
        constructor
        · intro hok; cases hok
        · rintro ⟨resp', hresp', h200⟩
          cases hresp'
          exact absurd h200 hs
    · rw [if_neg hs]
      have h200 : resp.status_code = 200 := Decidable.not_not.mp hs
      cases hj : resp.json with
      | error e =>
        dsimp only
        exact ⟨fun _ => ⟨resp, rfl, h200⟩, fun _ => rfl⟩
      | ok j =>
        dsimp only
        exact ⟨fun _ => ⟨resp, rfl, h200⟩, fun _ => rfl⟩

/-- Witness for C5, at a completed 200 exchange. -/
theorem C5_ok_iff_completed_200_witness :
    ((call_llm "model-x" [user_message "hi"]
        (fun _ => TransportResult.success resp_200_hi)).1 =
      Except.ok { ok := true, text := PyVal.str "hi", raw := resp_200_hi.text,
                  status_code := some 200 })
    ∧ (({ ok := true, text := PyVal.str "hi", raw := resp_200_hi.text,
          status_code := some 200 } : InvocationResult).ok = true ↔
        ∃ resp : HttpResponse,
          (fun _ => TransportResult.success resp_200_hi)
              (call_llm_request "model-x" [user_message "hi"]) =
            TransportResult.success resp
          ∧ resp.status_code = 200) :=
  ⟨rfl,
   C5_ok_iff_completed_200 "model-x" [user_message "hi"]
     (fun _ => TransportResult.success resp_200_hi)
     { ok := true, text := PyVal.str "hi", raw := resp_200_hi.text, status_code := some 200 }
     rfl⟩

/-- Claim C7: a submission with source text "Hello", language "French" and
action "translate" issues exactly one adapter call, with the Qwen model and
prompt "Переведи на French: Hello"; with action "judge", a second adapter
call is issued with the Claude model and a prompt embedding the original
text and the first call's returned text, or the literal placeholder
"[нет перевода]" when the first call produced no (truthy) text. -/
theorem C7_end_to_end_hello_french (transport : HttpRequest → TransportResult)
    (tr_r : InvocationResult)
    (htr : (call_llm "Qwen/Qwen3-VL-30B-A3B-Instruct"
        [user_message "Переведи на French: Hello"] transport).1 = Except.ok tr_r) :
    (∃ page calls,
      process ⟨some "Hello", some "French", some "translate"⟩ transport =
        Except.ok (page, calls)
      ∧ calls.map (fun c => (c.model_name, build_prompt c.messages)) =
          [("Qwen/Qwen3-VL-30B-A3B-Instruct", "Переведи на French: Hello")])
    ∧ (∃ page calls,
      process ⟨some "Hello", some "French", some "judge"⟩ transport =
        Except.ok (page, calls)
      ∧ calls.map (fun c => (c.model_name, build_prompt c.messages)) =
          [("Qwen/Qwen3-VL-30B-A3B-Instruct", "Переведи на French: Hello"),
           ("claude-sonnet-4-5-20250929",
            "Оцени качество перевода от 1 до 10 и коротко аргументируй.\nОригинал: Hello\nПеревод: "
              ++ (if pyTruthy tr_r.text = true then pyStr tr_r.text
                  else "[нет перевода]"))]) := by
  have htp1 : translate_prompt ⟨some "Hello", some "French", some "translate"⟩ =
      "Переведи на French: Hello" := rfl
  have htp2 : translate_prompt ⟨some "Hello", some "French", some "judge"⟩ =
      "Переведи на French: Hello" := rfl
  constructor
  · have hne : form_source_text (⟨some "Hello", some "French", some "translate"⟩ : Form) ≠ "" :=
      by decide
    have hact : (⟨some "Hello", some "French", some "translate"⟩ : Form).action ≠
        some "judge" := by decide
    unfold process
    rw [if_neg hne, htp1, htr]
    dsimp only
    rw [if_neg hact]
    exact ⟨_, _, rfl, rfl⟩
  · have hne : form_source_text (⟨some "Hello", some "French", some "judge"⟩ : Form) ≠ "" :=
      by decide
    have hact : (⟨some "Hello", some "French", some "judge"⟩ : Form).action =
        some "judge" := rfl
    unfold process
    rw [if_neg hne, htp2, htr]
    dsimp only
    rw [if_pos hact]
    obtain ⟨jr, hjr⟩ := call_llm_fst_isOk "claude-sonnet-4-5-20250929"
      [user_message (judge_prompt ⟨some "Hello", some "French", some "judge"⟩ tr_r.text)]
      transport
    rw [hjr]
    refine ⟨_, _, rfl, ?_⟩
    simp only [List.map]
    rw [build_prompt_user_message, build_prompt_user_message]
    unfold judge_prompt
    rw [pyStr_pyOr]
    rfl

/-- Witness for C7, with a transport that fails: the translation call returns
`text = "boom"` and the judge prompt embeds it. -/
theorem C7_end_to_end_hello_french_witness :
    ((call_llm "Qwen/Qwen3-VL-30B-A3B-Instruct"
        [user_message "Переведи на French: Hello"] (fun _ => TransportResult.exn "boom")).1 =
      Except.ok { ok := false, text := PyVal.str "boom", raw := "",
                  status_code := Option.none })
    ∧ ((∃ page calls,
        process ⟨some "Hello", some "French", some "translate"⟩
            (fun _ => TransportResult.exn "boom") =
          Except.ok (page, calls)
        ∧ calls.map (fun c => (c.model_name, build_prompt c.messages)) =
            [("Qwen/Qwen3-VL-30B-A3B-Instruct", "Переведи на French: Hello")])
      ∧ (∃ page calls,
        process ⟨some "Hello", some "French", some "judge"⟩
            (fun _ => TransportResult.exn "boom") =
          Except.ok (page, calls)
        ∧ calls.map (fun c => (c.model_name, build_prompt c.messages)) =
            [("Qwen/Qwen3-VL-30B-A3B-Instruct", "Переведи на French: Hello"),
             ("claude-sonnet-4-5-20250929",
              "Оцени качество перевода от 1 до 10 и коротко аргументируй.\nОригинал: Hello\nПеревод: "
                ++ (if pyTruthy (PyVal.str "boom") = true then pyStr (PyVal.str "boom")
                    else "[нет перевода]"))])) :=
  ⟨rfl,
   C7_end_to_end_hello_french (fun _ => TransportResult.exn "boom")
     { ok := false, text := PyVal.str "boom", raw := "", status_code := Option.none } rfl⟩

/-- Claim C10: in the judge flow the second (judge) adapter call is issued
even when the first (translation) call failed — the first call's result is
unconstrained here, and the witness instantiates it with a transport
failure.  The judge prompt embeds the first call's text whenever that text
is truthy and the placeholder "[нет перевода]" otherwise; and a falsy text
out of the adapter can only be the empty string (never `None`), so the
placeholder is used only when the first call's text is empty. -/
theorem C10_judge_called_even_on_failure (source language : String)
    (transport : HttpRequest → TransportResult) (tr_r : InvocationResult)
    (hsrc : pyStrip source ≠ "")
    (htr : (call_llm "Qwen/Qwen3-VL-30B-A3B-Instruct"
        [user_message (translate_prompt ⟨some source, some language, some "judge"⟩)]
        transport).1 = Except.ok tr_r) :
    ∃ page calls,
      process ⟨some source, some language, some "judge"⟩ transport =
        Except.ok (page, calls)
      ∧ calls.length = 2
      ∧ calls.map (fun c => (c.model_name, build_prompt c.messages)) =
          [("Qwen/Qwen3-VL-30B-A3B-Instruct",
            translate_prompt ⟨some source, some language, some "judge"⟩),
           ("claude-sonnet-4-5-20250929",
            "Оцени качество перевода от 1 до 10 и коротко аргументируй.\nОригинал: "
              ++ pyStrip source ++ "\nПеревод: "
              ++ (if pyTruthy tr_r.text = true then pyStr tr_r.text
                  else "[нет перевода]"))]
      ∧ (pyTruthy tr_r.text = false → tr_r.text = PyVal.str "") := by
  have hne : form_source_text (⟨some source, some language, some "judge"⟩ : Form) ≠ "" :=
    hsrc
  have hact : (⟨some source, some language, some "judge"⟩ : Form).action = some "judge" :=
    rfl
  unfold process
  rw [if_neg hne, htr]
  dsimp only
  rw [if_pos hact]
  obtain ⟨jr, hjr⟩ := call_llm_fst_isOk "claude-sonnet-4-5-20250929"
    [user_message (judge_prompt ⟨some source, some language, some "judge"⟩ tr_r.text)]
    transport
  rw [hjr]
  refine ⟨_, _, rfl, rfl, ?_, ?_⟩
  · simp only [List.map]
    rw [build_prompt_user_message, build_prompt_user_message]
    unfold judge_prompt
    rw [pyStr_pyOr]
    rfl
  · intro hf
    exact call_llm_text_falsy_empty _ _ htr hf

/-- Witness for C10: a transport failure on both calls — the judge call is
still issued and its prompt embeds the failed translation's error text. -/
theorem C10_judge_called_even_on_failure_witness :
    pyStrip "Hello" ≠ ""
    ∧ ((call_llm "Qwen/Qwen3-VL-30B-A3B-Instruct"
        [user_message (translate_prompt ⟨some "Hello", some "French", some "judge"⟩)]
        (fun _ => TransportResult.exn "boom")).1 =
      Except.ok { ok := false, text := PyVal.str "boom", raw := "",
                  status_code := Option.none })
    ∧ (∃ page calls,
      process ⟨some "Hello", some "French", some "judge"⟩
          (fun _ => TransportResult.exn "boom") =
        Except.ok (page, calls)
      ∧ calls.length = 2
      ∧ calls.map (fun c => (c.model_name, build_prompt c.messages)) =
          [("Qwen/Qwen3-VL-30B-A3B-Instruct",
            translate_prompt ⟨some "Hello", some "French", some "judge"⟩),
           ("claude-sonnet-4-5-20250929",
            "Оцени качество перевода от 1 до 10 и коротко аргументируй.\nОригинал: "
              ++ pyStrip "Hello" ++ "\nПеревод: "
              ++ (if pyTruthy (PyVal.str "boom") = true then pyStr (PyVal.str "boom")
                  else "[нет перевода]"))]
      ∧ (pyTruthy (PyVal.str "boom") = false → PyVal.str "boom" = PyVal.str "")) :=
  ⟨by decide, rfl,
   C10_judge_called_even_on_failure "Hello" "French" (fun _ => TransportResult.exn "boom")
     { ok := false, text := PyVal.str "boom", raw := "", status_code := Option.none }
     (by decide) rfl⟩
